import Mathlib

/-!
Shallow embedding of the WebSocket data pipeline of the Algo_Mini_Modules
repository: the exchange clients in
modules/Websocket_Raw_Data/Bitget_Websocket_Raw_Data.py and
modules/Websocket_Raw_Data/KuCoin_Websocket_Raw_Data.py, and the façade in
gui/utils/websocket_manager.py.

Conventions of the embedding:
  - Parsed JSON values are modelled by the inductive `JVal`; a Python dict
    is a `jobj` association list, a JSON array a `jarr`, strings `jstr`,
    numbers `jnum` (exact rationals).
  - Python `float(x)` on decimal literals is modelled exactly over ℚ by
    `parseFloat`; an unparseable string yields `none` (the Python
    ValueError is caught by the surrounding try/except, which returns None).
  - A Python method that mutates `self` becomes a function from the state
    record to the new state record (plus its return value).
  - Fields the claims never touch (timestamps from datetime.now(), the
    raw_data echo of the input frame, thread handles, sockets) are either
    omitted or abstracted into booleans/counters, as noted at each
    definition.
-/

/-- A parsed JSON value, as delivered to the data callbacks after
`json.loads`. -/
inductive JVal where
  | jstr : String → JVal
  | jnum : ℚ → JVal
  | jbool : Bool → JVal
  | jnull : JVal
  | jobj : List (String × JVal) → JVal
  | jarr : List JVal → JVal

/-- Dictionary lookup `d[k]` combined with the `k in d` test: `none` both
when the key is absent (Python KeyError, caught by the enclosing
try/except) and when the value is not a dict. -/
def jlookup : JVal → String → Option JVal
  | JVal.jobj fields, k => (fields.find? (fun p => p.1 = k)).map (fun p => p.2)
  | _, _ => none

/-- The digits of a decimal literal read as a natural number; `none` when
the character list is empty or contains a non-digit. -/
def parseNatDigits (cs : List Char) : Option Nat :=
  match cs with
  | [] => none
  | _ => cs.foldlM (fun acc c => if c.isDigit then some (acc * 10 + (c.toNat - 48)) else none) 0

/-- Split a character list at the first dot: the part before it, and
(when a dot occurs) the part after it. -/
def spanNoDot : List Char → List Char × Option (List Char)
  | [] => ([], none)
  | c :: r =>
    if c = '.' then ([], some r)
    else
      let p := spanNoDot r
      (c :: p.1, p.2)

/-- Python `float(s)` on a plain decimal string (optional sign, integer
part, optional fractional part), modelled exactly over ℚ. Strings that do
not have this shape yield `none`, as the ValueError raised by `float` is
caught by the callers' try/except. (Exponent and inf/nan forms never occur
in the exchange frames this repository parses and are not modelled.) -/
def parseFloat (s : String) : Option ℚ :=
  let p : ℚ × List Char :=
    match s.data with
    | '-' :: r => (-1, r)
    | '+' :: r => (1, r)
    | r => (1, r)
  let q := spanNoDot p.2
  match q.2 with
  | none => (parseNatDigits q.1).map (fun n => p.1 * n)
  | some fp =>
    if q.1.isEmpty && fp.isEmpty then none
    else do
      let ipv ← if q.1.isEmpty then some 0 else parseNatDigits q.1
      let fpv ← if fp.isEmpty then some 0 else parseNatDigits fp
      some (p.1 * ((ipv : ℚ) + (fpv : ℚ) / (10 : ℚ) ^ fp.length))

/-- Python `float(x)` applied to a JSON value: numeric strings are parsed,
numbers pass through, anything else raises (modelled as `none`). -/
def JVal.toFloat? : JVal → Option ℚ
  | JVal.jstr s => parseFloat s
  | JVal.jnum q => some q
  | _ => none

/-- One row of the WebSocket Manager's unified data format, as built by
`_process_kucoin_data` / `_process_bitget_data`. The `timestamp` column
(datetime.now()) and the `raw_data` echo of the input frame are
environment-dependent bookkeeping the claims never mention and are not
modelled. `symbol` and `side` are stored exactly as found in the frame
(the Python code copies the JSON value unchanged), hence have type
`JVal`. -/
structure NormalizedRecord where
  exchange : String
  symbol : JVal
  price : ℚ
  best_bid : ℚ
  best_ask : ℚ
  volume : ℚ
  side : JVal

/-- `WebSocketManager._process_kucoin_data` (gui/utils/websocket_manager.py,
lines 217-253): a frame is recognised as a ticker push exactly when its
`type` field equals the string `message` and its `subject` field equals the
string `ticker`; then all record fields are extracted, every numeric field
through `float(...)`. Any missing key or unparseable number raises inside
the try block, which returns None — modelled by the `Option` chain. -/
def WebSocketManager.process_kucoin_data (data : JVal) : Option NormalizedRecord :=
  match jlookup data "type", jlookup data "subject" with
  | some (JVal.jstr "message"), some (JVal.jstr "ticker") => do
    let td ← jlookup data "data"
    let sym ← jlookup td "symbol"
    let price ← (← jlookup td "price").toFloat?
    let best_bid ← (← jlookup td "bestBidPrice").toFloat?
    let best_ask ← (← jlookup td "bestAskPrice").toFloat?
    let volume ← (← jlookup td "size").toFloat?
    let side ← jlookup td "side"
    some { exchange := "KuCoin", symbol := sym, price := price, best_bid := best_bid,
           best_ask := best_ask, volume := volume, side := side }
  | _, _ => none

/-- `WebSocketManager._process_bitget_data` (gui/utils/websocket_manager.py,
lines 255-292): a frame is recognised exactly when `action == "snapshot"`,
both `arg` and `data` keys exist, and `arg.channel == "ticker"`; the record
is built from `data[0]` and `arg.instId`, with
`side = "buy" if float(change) > 0 else "sell"`. Failures inside the try
block return None — modelled by the `Option` chain. -/
def WebSocketManager.process_bitget_data (data : JVal) : Option NormalizedRecord :=
  match jlookup data "action", jlookup data "arg", jlookup data "data" with
  | some (JVal.jstr "snapshot"), some arg, some dataField =>
    match jlookup arg "channel" with
    | some (JVal.jstr "ticker") => do
      let td ← match dataField with
               | JVal.jarr (x :: _) => some x
               | _ => none
      let sym ← jlookup arg "instId"
      let price ← (← jlookup td "last").toFloat?
      let best_bid ← (← jlookup td "bidPr").toFloat?
      let best_ask ← (← jlookup td "askPr").toFloat?
      let volume ← (← jlookup td "vol24h").toFloat?
      let change ← (← jlookup td "change").toFloat?
      some { exchange := "BitGet", symbol := sym, price := price, best_bid := best_bid,
             best_ask := best_ask, volume := volume,
             side := if change > 0 then JVal.jstr "buy" else JVal.jstr "sell" }
    | _ => none
  | _, _, _ => none

/-- The state of a `WebSocketManager` instance
(gui/utils/websocket_manager.py). `has_client` stands for
`websocket_client is not None`; `worker_count` counts the worker threads
started so far; timestamps are abstract rationals. The thread handle and
the stop event carry no claim-relevant information beyond these. -/
structure WebSocketManager where
  connected : Bool
  exchange : Option String
  symbol : Option String
  channels : List String
  market_type : Option String
  has_client : Bool
  data_buffer : List NormalizedRecord
  last_update : Option ℚ
  worker_count : Nat

/-- The state of a `WebSocketManager` right after `__init__`. -/
def WebSocketManager.init : WebSocketManager :=
  { connected := false, exchange := none, symbol := none, channels := [],
    market_type := none, has_client := false, data_buffer := [],
    last_update := none, worker_count := 0 }

/-- `WebSocketManager._process_data` (lines 189-215): dispatch on
`self.exchange`; any other value logs a warning and returns None. (The
string-input `json.loads` branch is not modelled: callers of the embedding
pass parsed frames.) -/
def WebSocketManager.process_data (exchange : Option String) (data : JVal) :
    Option NormalizedRecord :=
  if exchange = some "KuCoin" then WebSocketManager.process_kucoin_data data
  else if exchange = some "BitGet" then WebSocketManager.process_bitget_data data
  else none

/-- The buffer-append step inside `WebSocketManager._data_callback`
(lines 176-180): `pd.concat` appends the new row at the end, then
`tail(1000)` keeps the last 1000 rows whenever the length exceeds 1000. -/
def WebSocketManager.append_record (buf : List NormalizedRecord)
    (r : NormalizedRecord) : List NormalizedRecord :=
  let b := buf ++ [r]
  if b.length > 1000 then b.drop (b.length - 1000) else b

/-- `WebSocketManager._data_callback` (lines 160-187). When processing
yields None, the `if processed_data:` test is falsy and nothing happens.
When processing yields a DataFrame, that same truthiness test raises
ValueError (pandas forbids DataFrame truth values) before line 173 runs;
the `except` at line 186 logs and swallows it. So on every input the
callback leaves the manager — `last_update` and `data_buffer` included —
unchanged; the append of lines 176-180 (embedded as `append_record`) is
unreachable from here. `_now` stands for the datetime.now() the
intended success path would have stored. -/
def WebSocketManager.data_callback (s : WebSocketManager) (_now : ℚ) (data : JVal) :
    WebSocketManager :=
  match WebSocketManager.process_data s.exchange data with
  | none => s
  | some _ => s

/-- `WebSocketManager.connect` (lines 48-128). Returns the new state and
the boolean result. The guard `if self.connected` returns False before any
field is touched. Otherwise exchange, symbol, channels and market_type are
stored, and for a known exchange the client is constructed and a worker
thread started; `setup_ok` abstracts whether client construction and
thread start raise (the except branch returns False). -/
def WebSocketManager.connect (s : WebSocketManager) (exchange symbol : String)
    (channels : List String) (market_type : String) (setup_ok : Bool) :
    WebSocketManager × Bool :=
  if s.connected then (s, false)
  else
    let s1 := { s with exchange := some exchange, symbol := some symbol,
                       channels := channels, market_type := some market_type }
    if exchange = "KuCoin" ∨ exchange = "BitGet" then
      if setup_ok then
        ({ s1 with has_client := true, worker_count := s1.worker_count + 1,
                   connected := true }, true)
      else (s1, false)
    else (s1, false)

/-- `WebSocketManager.disconnect` (lines 130-158): without a connection the
method logs a warning and returns True, touching nothing; with one it
signals the stop event, joins the worker, resets `connected`,
`websocket_client` and `last_update`, and returns True. The data buffer is
not touched on either path. -/
def WebSocketManager.disconnect (s : WebSocketManager) : WebSocketManager × Bool :=
  if !s.connected then (s, true)
  else ({ s with connected := false, has_client := false, last_update := none }, true)

/-- `WebSocketManager.get_data` (lines 350-357). -/
def WebSocketManager.get_data (s : WebSocketManager) : List NormalizedRecord :=
  s.data_buffer

/-- `WebSocketManager.is_connected` (lines 359-366). -/
def WebSocketManager.is_connected (s : WebSocketManager) : Bool :=
  s.connected

/-- `WebSocketManager.get_last_update` (lines 368-375). -/
def WebSocketManager.get_last_update (s : WebSocketManager) : Option ℚ :=
  s.last_update

/-- The claim-relevant state of a `BitgetWebSocket` client instance
(modules/Websocket_Raw_Data/Bitget_Websocket_Raw_Data.py): the `connected`
flag and the reconnect counter. API keys, the socket handle and the ping
timestamp play no role in the reconnect claims. -/
structure BitgetWebSocket where
  connected : Bool
  reconnect_count : Nat

/-- `self.max_reconnects = 5` set unconditionally in
`BitgetWebSocket.__init__` (line 103). -/
def BitgetWebSocket.max_reconnects : Nat := 5

/-- A fresh `BitgetWebSocket` after `__init__` (lines 98, 102). -/
def BitgetWebSocket.init : BitgetWebSocket :=
  { connected := false, reconnect_count := 0 }

/-- `BitgetWebSocket.on_close` (lines 141-160): clear `connected`; when the
counter is strictly below `max_reconnects`, increment it and call
`connect` again (the returned boolean records that a reconnection attempt
was triggered); otherwise only log the terminal error and attempt
nothing. -/
def BitgetWebSocket.on_close (s : BitgetWebSocket) : BitgetWebSocket × Bool :=
  let s := { s with connected := false }
  if s.reconnect_count < BitgetWebSocket.max_reconnects then
    ({ s with reconnect_count := s.reconnect_count + 1 }, true)
  else
    (s, false)

/-- `BitgetWebSocket.on_open` (lines 162-176): set `connected` and reset
the reconnect counter to zero. (The subscription it then sends does not
touch these fields.) -/
def BitgetWebSocket.on_open (s : BitgetWebSocket) : BitgetWebSocket :=
  { s with connected := true, reconnect_count := 0 }

/-- The claim-relevant state of a `KuCoinWebSocket` client instance
(modules/Websocket_Raw_Data/KuCoin_Websocket_Raw_Data.py): the `connected`
flag, the reconnect counter, and the token cache
(`self.token`, `self.token_expiry`, `self.endpoint`). Times are abstract
rationals standing for the float seconds of `time.time()`. -/
structure KuCoinWebSocket where
  connected : Bool
  reconnect_count : Nat
  token : Option String
  token_expiry : ℚ
  endpoint : Option String

/-- `self.max_reconnects = 5` set unconditionally in
`KuCoinWebSocket.__init__` (line 109). -/
def KuCoinWebSocket.max_reconnects : Nat := 5

/-- A fresh `KuCoinWebSocket` after `__init__` (lines 104, 108, 113-115). -/
def KuCoinWebSocket.init : KuCoinWebSocket :=
  { connected := false, reconnect_count := 0, token := none, token_expiry := 0,
    endpoint := none }

/-- `KuCoinWebSocket.on_close` (lines 190-209): identical logic to the
BitGet client — clear `connected`, and reconnect (increment the counter,
call `connect`) only while the counter is strictly below
`max_reconnects`. -/
def KuCoinWebSocket.on_close (s : KuCoinWebSocket) : KuCoinWebSocket × Bool :=
  let s := { s with connected := false }
  if s.reconnect_count < KuCoinWebSocket.max_reconnects then
    ({ s with reconnect_count := s.reconnect_count + 1 }, true)
  else
    (s, false)

/-- `KuCoinWebSocket.on_open` (lines 211-225): set `connected` and reset
the reconnect counter to zero. -/
def KuCoinWebSocket.on_open (s : KuCoinWebSocket) : KuCoinWebSocket :=
  { s with connected := true, reconnect_count := 0 }

/-- A socket lifecycle event delivered by the websocket library: the open
handler firing, or an unexpected close. -/
inductive WsEvent where
  | opened : WsEvent
  | closed : WsEvent

/-- One lifecycle event applied to a BitGet client state. -/
def BitgetWebSocket.step (s : BitgetWebSocket) : WsEvent → BitgetWebSocket
  | WsEvent.opened => s.on_open
  | WsEvent.closed => (s.on_close).1

/-- A sequence of lifecycle events applied to a BitGet client state. -/
def BitgetWebSocket.run (s : BitgetWebSocket) (evs : List WsEvent) : BitgetWebSocket :=
  evs.foldl BitgetWebSocket.step s

/-- One lifecycle event applied to a KuCoin client state. -/
def KuCoinWebSocket.step (s : KuCoinWebSocket) : WsEvent → KuCoinWebSocket
  | WsEvent.opened => s.on_open
  | WsEvent.closed => (s.on_close).1

/-- A sequence of lifecycle events applied to a KuCoin client state. -/
def KuCoinWebSocket.run (s : KuCoinWebSocket) (evs : List WsEvent) : KuCoinWebSocket :=
  evs.foldl KuCoinWebSocket.step s

/-- The parsed body of the KuCoin bullet-token HTTP response, as consumed
by `_get_ws_token`: the response code, `data.token` and
`data.instanceServers[0].endpoint`. -/
structure BulletResponse where
  code : String
  token : String
  endpoint : String

/-- `KuCoinWebSocket._get_ws_token` (lines 125-159). Takes the current
time and the (parsed) response the HTTP POST would deliver; returns the
outcome (the WebSocket URL and the new state, or the raised error), and a
boolean recording whether the HTTP call was performed. The cached branch
requires a truthy `self.token` (present and non-empty, Python truthiness)
and `current_time < self.token_expiry`; the fetch branch raises unless the
code is the string 200000, and on success caches the token with
`token_expiry = current_time + 23 * 3600`. Note the method takes no other
parameter: there is no refresh flag in the source. -/
def KuCoinWebSocket.get_ws_token (s : KuCoinWebSocket) (current_time : ℚ)
    (resp : BulletResponse) : Except String (String × KuCoinWebSocket) × Bool :=
  let fetch : Except String (String × KuCoinWebSocket) × Bool :=
    if resp.code ≠ "200000" then
      (Except.error "Token-Anfrage fehlgeschlagen", true)
    else
      let s2 := { s with token := some resp.token, endpoint := some resp.endpoint,
                         token_expiry := current_time + 23 * 3600 }
      (Except.ok (resp.endpoint ++ "?token=" ++ resp.token, s2), true)
  match s.token with
  | some t =>
    if t ≠ "" ∧ current_time < s.token_expiry then
      (Except.ok ((s.endpoint.getD "None") ++ "?token=" ++ t, s), false)
    else fetch
  | none => fetch

/-- The channel-list defaulting shared by `subscribe` and `connect` of both
clients: Python `if not channels: channels = the ticker singleton` /
`channels if channels else the ticker singleton`. `none` models the Python
default argument None; an explicit empty list is equally falsy. -/
def effectiveChannels (channels : Option (List String)) : List String :=
  match channels with
  | none => ["ticker"]
  | some [] => ["ticker"]
  | some cs => cs

/-- The symbol cleaning in `BitgetWebSocket.subscribe` (lines 199-202):
Python tests the underscore character with `"_" in symbol` and takes
`symbol.split("_")[0]`, the part before the first underscore; without an
underscore the symbol passes through. Modelled on the character list. -/
def BitgetWebSocket.clean_symbol (symbol : String) : String :=
  if symbol.data.contains '_' then
    (symbol.data.takeWhile (fun c => c ≠ '_')).asString
  else symbol

/-- One element of the `args` array of the subscription frame built by
`BitgetWebSocket.subscribe`. -/
structure BitgetSubArg where
  instType : String
  channel : String
  instId : String

/-- `BitgetWebSocket.subscribe` (lines 188-230): default the channel list,
clean the symbol, and build one arg per channel with
`instType = "USDT-FUTURES"`, the channel, and the cleaned symbol as
`instId`. The function returns the `args` list of the single subscription
frame sent over the socket. -/
def BitgetWebSocket.subscribe_args (symbol : String)
    (channels : Option (List String)) : List BitgetSubArg :=
  let channels := effectiveChannels channels
  let clean_symbol := BitgetWebSocket.clean_symbol symbol
  channels.map (fun channel =>
    { instType := "USDT-FUTURES", channel := channel, instId := clean_symbol })

/-- `BitgetWebSocket.connect` line 242: `self.channels = channels if
channels else` the ticker singleton. -/
def BitgetWebSocket.connect_channels (channels : Option (List String)) : List String :=
  match channels with
  | none => ["ticker"]
  | some [] => ["ticker"]
  | some cs => cs

/-- `KuCoinWebSocket._get_topic` (lines 241-273): the topic string for a
channel and symbol, by market type. The symbol is interpolated verbatim
into the topic in every branch. -/
def KuCoinWebSocket.get_topic (market_type : String) (channel : String)
    (symbol : String) : String :=
  if market_type = "futures" then
    if channel = "ticker" then "/contractMarket/ticker:" ++ symbol
    else if channel = "level2" then "/contractMarket/level2:" ++ symbol
    else if channel = "execution" then "/contractMarket/execution:" ++ symbol
    else if channel = "trade" then "/contractMarket/trade:" ++ symbol
    else "/contractMarket/" ++ channel ++ ":" ++ symbol
  else
    if channel = "ticker" then "/market/ticker:" ++ symbol
    else if channel = "level2" then "/market/level2:" ++ symbol
    else if channel = "trade" then "/market/match:" ++ symbol
    else "/market/" ++ channel ++ ":" ++ symbol

/-- `KuCoinWebSocket.subscribe` (lines 275-317): default the channel list,
then send one subscription frame per channel whose `topic` comes from
`_get_topic`. The function returns the list of topics sent. -/
def KuCoinWebSocket.subscribe_topics (market_type : String) (symbol : String)
    (channels : Option (List String)) : List String :=
  let channels := effectiveChannels channels
  channels.map (fun channel => KuCoinWebSocket.get_topic market_type channel symbol)

/-- `KuCoinWebSocket.connect` line 317: `self.channels = channels if
channels else` the ticker singleton. -/
def KuCoinWebSocket.connect_channels (channels : Option (List String)) : List String :=
  match channels with
  | none => ["ticker"]
  | some [] => ["ticker"]
  | some cs => cs

/-- The KuCoin ticker push of end-to-end scenario A of the specification. -/
def kucoinTickerMsgA : JVal :=
  JVal.jobj [("type", JVal.jstr "message"), ("subject", JVal.jstr "ticker"),
    ("data", JVal.jobj [("symbol", JVal.jstr "BTC-USDT"),
      ("price", JVal.jstr "50000.1"),
      ("bestBidPrice", JVal.jstr "50000.0"),
      ("bestAskPrice", JVal.jstr "50000.2"),
      ("size", JVal.jstr "0.01"),
      ("side", JVal.jstr "buy")])]

/-- The BitGet ticker push of end-to-end scenario B of the specification,
with the `change` field left as a parameter (scenario B uses 0.01). -/
def bitgetTickerMsgChange (change : String) : JVal :=
  JVal.jobj [("action", JVal.jstr "snapshot"),
    ("arg", JVal.jobj [("instType", JVal.jstr "USDT-FUTURES"),
      ("channel", JVal.jstr "ticker"), ("instId", JVal.jstr "BTCUSDT")]),
    ("data", JVal.jarr [JVal.jobj [("last", JVal.jstr "50000.1"),
      ("bidPr", JVal.jstr "50000.0"), ("askPr", JVal.jstr "50000.2"),
      ("vol24h", JVal.jstr "1000"), ("change", JVal.jstr change)]])]

/-- A KuCoin welcome frame: not a ticker push. -/
def kucoinWelcomeMsg : JVal :=
  JVal.jobj [("id", JVal.jstr "hQvf8jkno"), ("type", JVal.jstr "welcome")]

/-- A BitGet subscribe acknowledgement: it has no `action` key, so it is
not a ticker push. -/
def bitgetSubAckMsg : JVal :=
  JVal.jobj [("event", JVal.jstr "subscribe"),
    ("arg", JVal.jobj [("instType", JVal.jstr "USDT-FUTURES"),
      ("channel", JVal.jstr "ticker"), ("instId", JVal.jstr "BTCUSDT")])]

/-- A ticker-shaped KuCoin frame whose `price` field is missing. -/
def kucoinTickerMsgNoPrice : JVal :=
  JVal.jobj [("type", JVal.jstr "message"), ("subject", JVal.jstr "ticker"),
    ("data", JVal.jobj [("symbol", JVal.jstr "BTC-USDT"),
      ("bestBidPrice", JVal.jstr "50000.0"),
      ("bestAskPrice", JVal.jstr "50000.2"),
      ("size", JVal.jstr "0.01"),
      ("side", JVal.jstr "buy")])]

/-- A ticker-shaped KuCoin frame whose `price` field does not parse as a
number. -/
def kucoinTickerMsgBadPrice : JVal :=
  JVal.jobj [("type", JVal.jstr "message"), ("subject", JVal.jstr "ticker"),
    ("data", JVal.jobj [("symbol", JVal.jstr "BTC-USDT"),
      ("price", JVal.jstr "not-a-number"),
      ("bestBidPrice", JVal.jstr "50000.0"),
      ("bestAskPrice", JVal.jstr "50000.2"),
      ("size", JVal.jstr "0.01"),
      ("side", JVal.jstr "buy")])]

/-- A sample normalized record, for concrete manager states. -/
def sampleRecord : NormalizedRecord :=
  { exchange := "KuCoin", symbol := JVal.jstr "BTC-USDT", price := 50000,
    best_bid := 49999, best_ask := 50001, volume := 1, side := JVal.jstr "buy" }

/-- A manager that has an established KuCoin connection. -/
def connectedManager : WebSocketManager :=
  { WebSocketManager.init with
    connected := true, exchange := some "KuCoin",
    symbol := some "BTCUSDT", channels := ["ticker"],
    market_type := some "futures", has_client := true, worker_count := 1 }

/-- A connected manager that has already accumulated a record. -/
def connectedManagerWithData : WebSocketManager :=
  { connectedManager with data_buffer := [sampleRecord], last_update := some 5 }

/-- A KuCoin client holding a cached, non-empty, unexpired token. -/
def c4CachedState : KuCoinWebSocket :=
  { connected := true, reconnect_count := 0, token := some "tok",
    token_expiry := 100, endpoint := some "wss://cached.example" }

/-- A successful bullet-token response that a fresh HTTP call would
deliver. -/
def c4FreshResp : BulletResponse :=
  { code := "200000", token := "newtok", endpoint := "wss://fresh.example" }

theorem parseFloat_500001_10 : parseFloat "50000.1" = some (500001 / 10) := by
  simp +decide [parseFloat, spanNoDot, parseNatDigits]
  all_goals norm_num

theorem parseFloat_50000 : parseFloat "50000.0" = some 50000 := by
  simp +decide [parseFloat, spanNoDot, parseNatDigits]

theorem parseFloat_250001_5 : parseFloat "50000.2" = some (250001 / 5) := by
  simp +decide [parseFloat, spanNoDot, parseNatDigits]
  all_goals norm_num

theorem parseFloat_1000 : parseFloat "1000" = some 1000 := by
  simp +decide [parseFloat, spanNoDot, parseNatDigits]

theorem parseFloat_001 : parseFloat "0.01" = some (1 / 100) := by
  simp +decide [parseFloat, spanNoDot, parseNatDigits]

theorem append_record_drop (l : List NormalizedRecord) (r : NormalizedRecord) :
    WebSocketManager.append_record (l.drop (l.length - 1000)) r =
      (l ++ [r]).drop ((l ++ [r]).length - 1000) := by
  unfold WebSocketManager.append_record
  by_cases h : l.length ≤ 999
  · have h0 : l.length - 1000 = 0 := by omega
    have h1 : (l ++ [r]).length - 1000 = 0 := by simp; omega
    rw [h0, h1]
    simp only [List.drop_zero]
    rw [if_neg]
    simp
    omega
  · push_neg at h
    have hlen : (l.drop (l.length - 1000)).length = 1000 := by
      rw [List.length_drop]; omega
    have hgt : ((l.drop (l.length - 1000)) ++ [r]).length > 1000 := by
      simp [hlen]
    rw [if_pos hgt]
    have hd : ((l.drop (l.length - 1000)) ++ [r]).length - 1000 = 1 := by
      simp [hlen]
    rw [hd]
    have h1 : (1 : ℕ) ≤ (l.drop (l.length - 1000)).length := by omega
    rw [List.drop_append_of_le_length h1, List.drop_drop]
    have h3 : (l ++ [r]).length - 1000 = l.length - 1000 + 1 := by simp; omega
    rw [h3]
    have h2 : l.length - 1000 + 1 ≤ l.length := by omega
    rw [List.drop_append_of_le_length h2]

theorem buffer_foldl_drop (l : List NormalizedRecord) :
    List.foldl WebSocketManager.append_record [] l = l.drop (l.length - 1000) := by
  induction l using List.reverseRecOn with
  | nil => simp
  | append_singleton l r ih =>
    rw [List.foldl_append, ih]
    simpa using append_record_drop l r

theorem bitget_step_count_le (s : BitgetWebSocket) (e : WsEvent)
    (h : s.reconnect_count ≤ BitgetWebSocket.max_reconnects) :
    (s.step e).reconnect_count ≤ BitgetWebSocket.max_reconnects := by
  cases e
  all_goals
    simp only [BitgetWebSocket.step, BitgetWebSocket.on_open, BitgetWebSocket.on_close]
  · simp
  · split
    all_goals simp_all
    omega

theorem bitget_run_count_le (s : BitgetWebSocket) (evs : List WsEvent)
    (h : s.reconnect_count ≤ BitgetWebSocket.max_reconnects) :
    (s.run evs).reconnect_count ≤ BitgetWebSocket.max_reconnects := by
  induction evs generalizing s with
  | nil => exact h
  | cons e evs ih =>
    exact ih _ (bitget_step_count_le s e h)

theorem kucoin_step_count_le (s : KuCoinWebSocket) (e : WsEvent)
    (h : s.reconnect_count ≤ KuCoinWebSocket.max_reconnects) :
    (s.step e).reconnect_count ≤ KuCoinWebSocket.max_reconnects := by
  cases e
  all_goals
    simp only [KuCoinWebSocket.step, KuCoinWebSocket.on_open, KuCoinWebSocket.on_close]
  · simp
  · split
    all_goals simp_all
    omega

theorem kucoin_run_count_le (s : KuCoinWebSocket) (evs : List WsEvent)
    (h : s.reconnect_count ≤ KuCoinWebSocket.max_reconnects) :
    (s.run evs).reconnect_count ≤ KuCoinWebSocket.max_reconnects := by
  induction evs generalizing s with
  | nil => exact h
  | cons e evs ih =>
    exact ih _ (kucoin_step_count_le s e h)

/-- C1: For either exchange client, the reconnect counter is reset to zero
exactly by the open handler; an unexpected close increments it only while
it is strictly below max_reconnects (5) and then triggers a reconnection
attempt; at the maximum a close changes nothing and attempts no reconnect;
under any event sequence the counter never exceeds the maximum; and five
consecutive closes from a fresh open connection reach the maximum, after
which a further close attempts no reconnect — the connection is terminally
failed. -/
theorem claim1_reconnect_counter (s : BitgetWebSocket) (k : KuCoinWebSocket)
    (hs : s.reconnect_count ≤ BitgetWebSocket.max_reconnects)
    (hk : k.reconnect_count ≤ KuCoinWebSocket.max_reconnects) :
    (s.on_open.reconnect_count = 0 ∧ k.on_open.reconnect_count = 0)
  ∧ (s.reconnect_count < BitgetWebSocket.max_reconnects →
       s.on_close.1.reconnect_count = s.reconnect_count + 1 ∧ s.on_close.2 = true)
  ∧ (s.reconnect_count = BitgetWebSocket.max_reconnects →
       s.on_close.1.reconnect_count = BitgetWebSocket.max_reconnects ∧
         s.on_close.2 = false)
  ∧ (k.reconnect_count < KuCoinWebSocket.max_reconnects →
       k.on_close.1.reconnect_count = k.reconnect_count + 1 ∧ k.on_close.2 = true)
  ∧ (k.reconnect_count = KuCoinWebSocket.max_reconnects →
       k.on_close.1.reconnect_count = KuCoinWebSocket.max_reconnects ∧
         k.on_close.2 = false)
  ∧ (∀ evs : List WsEvent,
       (s.run evs).reconnect_count ≤ BitgetWebSocket.max_reconnects)
  ∧ (∀ evs : List WsEvent,
       (k.run evs).reconnect_count ≤ KuCoinWebSocket.max_reconnects)
  ∧ (BitgetWebSocket.run { connected := true, reconnect_count := 0 }
       [WsEvent.closed, WsEvent.closed, WsEvent.closed, WsEvent.closed,
        WsEvent.closed] =
       { connected := false, reconnect_count := 5 }
     ∧ (BitgetWebSocket.on_close
          { connected := false, reconnect_count := 5 }).2 = false)
  ∧ (KuCoinWebSocket.run { KuCoinWebSocket.init with connected := true }
       [WsEvent.closed, WsEvent.closed, WsEvent.closed, WsEvent.closed,
        WsEvent.closed] =
       { KuCoinWebSocket.init with connected := false, reconnect_count := 5 }
     ∧ (KuCoinWebSocket.on_close
          { KuCoinWebSocket.init with
            connected := false, reconnect_count := 5 }).2 = false) := by
  refine ⟨⟨rfl, rfl⟩, ?_, ?_, ?_, ?_,
    fun evs => bitget_run_count_le s evs hs,
    fun evs => kucoin_run_count_le k evs hk,
    ⟨rfl, rfl⟩, ⟨rfl, rfl⟩⟩
  · intro hlt
    unfold BitgetWebSocket.on_close
    simp [hlt]
  · intro heq
    unfold BitgetWebSocket.on_close
    simp [heq]
  · intro hlt
    unfold KuCoinWebSocket.on_close
    simp [hlt]
  · intro heq
    unfold KuCoinWebSocket.on_close
    simp [heq]

/-- C1 witness: the theorem applied to freshly initialised clients. -/
theorem claim1_reconnect_counter_witness :
    BitgetWebSocket.init.on_open.reconnect_count = 0 ∧
    KuCoinWebSocket.init.on_open.reconnect_count = 0 :=
  (claim1_reconnect_counter BitgetWebSocket.init KuCoinWebSocket.init
    (by decide) (by decide)).1

/-- C2: Appending any sequence of records to the manager's buffer through
the capped append of `_data_callback` leaves at most 1000 records, exactly
min(n, 1000) of them, and the buffer equals the suffix of the arrival
sequence past position n - 1000: the most recent 1000 records in original
arrival order, the oldest evicted first. -/
theorem claim2_buffer_fifo (l : List NormalizedRecord) :
    (List.foldl WebSocketManager.append_record [] l).length ≤ 1000
  ∧ (List.foldl WebSocketManager.append_record [] l).length = min l.length 1000
  ∧ List.foldl WebSocketManager.append_record [] l = l.drop (l.length - 1000) := by
  have h := buffer_foldl_drop l
  refine ⟨?_, ?_, h⟩
  all_goals rw [h, List.length_drop]
  all_goals omega

set_option maxHeartbeats 4000000 in
/-- C3: On the exact KuCoin push of scenario A the Normalizer yields the
record with exchange KuCoin, symbol BTC-USDT, price 50000.1 = 500001/10,
best_bid 50000.0, best_ask 50000.2 = 250001/5, volume 0.01 = 1/100 and
side buy; on the BitGet push of scenario B (change = 0.01 > 0) it yields
the corresponding numeric fields with side buy; and on the scenario-B
frame with any parseable change value c, side is buy exactly when c > 0
and sell otherwise. -/
theorem claim3_normalizer_scenarios :
    WebSocketManager.process_kucoin_data kucoinTickerMsgA =
      some { exchange := "KuCoin", symbol := JVal.jstr "BTC-USDT",
             price := 500001 / 10, best_bid := 50000, best_ask := 250001 / 5,
             volume := 1 / 100, side := JVal.jstr "buy" }
  ∧ WebSocketManager.process_bitget_data (bitgetTickerMsgChange "0.01") =
      some { exchange := "BitGet", symbol := JVal.jstr "BTCUSDT",
             price := 500001 / 10, best_bid := 50000, best_ask := 250001 / 5,
             volume := 1000, side := JVal.jstr "buy" }
  ∧ (∀ (c : String) (q : ℚ), parseFloat c = some q →
       WebSocketManager.process_bitget_data (bitgetTickerMsgChange c) =
         some { exchange := "BitGet", symbol := JVal.jstr "BTCUSDT",
                price := 500001 / 10, best_bid := 50000, best_ask := 250001 / 5,
                volume := 1000,
                side := if q > 0 then JVal.jstr "buy" else JVal.jstr "sell" }) := by
  have hlaw : ∀ (c : String) (q : ℚ), parseFloat c = some q →
      WebSocketManager.process_bitget_data (bitgetTickerMsgChange c) =
        some { exchange := "BitGet", symbol := JVal.jstr "BTCUSDT",
               price := 500001 / 10, best_bid := 50000, best_ask := 250001 / 5,
               volume := 1000,
               side := if q > 0 then JVal.jstr "buy" else JVal.jstr "sell" } := by
    intro c q hq
    simp +decide [WebSocketManager.process_bitget_data, bitgetTickerMsgChange,
      jlookup, JVal.toFloat?, hq, parseFloat_500001_10, parseFloat_50000,
      parseFloat_250001_5, parseFloat_1000]
  refine ⟨?_, ?_, hlaw⟩
  · simp +decide [WebSocketManager.process_kucoin_data, kucoinTickerMsgA,
      jlookup, JVal.toFloat?, parseFloat_500001_10, parseFloat_50000,
      parseFloat_250001_5, parseFloat_001]
  · rw [hlaw "0.01" (1 / 100) parseFloat_001]
    norm_num

/-- C3 witness: the side law applied to the concrete scenario-B change
value 0.01. -/
theorem claim3_normalizer_scenarios_witness :
    WebSocketManager.process_bitget_data (bitgetTickerMsgChange "0.01") =
      some { exchange := "BitGet", symbol := JVal.jstr "BTCUSDT",
             price := 500001 / 10, best_bid := 50000, best_ask := 250001 / 5,
             volume := 1000,
             side := if (1 / 100 : ℚ) > 0 then JVal.jstr "buy"
                     else JVal.jstr "sell" } :=
  claim3_normalizer_scenarios.2.2 "0.01" (1 / 100) parseFloat_001

/-- C4 counterexample: with a valid cached token, the provider ignores the
available fresh response entirely — no HTTP call occurs and the cached URL
is returned. `_get_ws_token` takes no argument besides the implicit
current time: there is no force_refresh flag that could bypass the cache,
contradicting the claim's final conjunct. -/
theorem claim4_counterexample :
    (c4CachedState.get_ws_token 0 c4FreshResp).2 = false ∧
    (c4CachedState.get_ws_token 0 c4FreshResp).1 =
      Except.ok ("wss://cached.example?token=tok", c4CachedState) := by
  constructor
  · rfl
  · rfl

/-- C4 (amended): the token is cached with expiry 23 hours (82800 seconds)
from issuance; a call while a cached non-empty token exists and the
current time is before its expiry returns the cached token URL with no
HTTP call; a cached token is never handed out at or past its expiry; an
absent or expired token forces a fresh synchronous fetch. There is no
force_refresh flag: the cache is consulted unconditionally. -/
theorem claim4_token_cache (s : KuCoinWebSocket) (now : ℚ) (resp : BulletResponse) :
    (∀ t, s.token = some t → t ≠ "" → now < s.token_expiry →
        s.get_ws_token now resp =
          (Except.ok ((s.endpoint.getD "None") ++ "?token=" ++ t, s), false))
  ∧ (s.token = none → (s.get_ws_token now resp).2 = true)
  ∧ (s.token_expiry ≤ now → (s.get_ws_token now resp).2 = true)
  ∧ ((s.get_ws_token now resp).2 = false → now < s.token_expiry)
  ∧ (s.token = none → resp.code = "200000" →
        s.get_ws_token now resp =
          (Except.ok (resp.endpoint ++ "?token=" ++ resp.token,
            { s with token := some resp.token, endpoint := some resp.endpoint,
                     token_expiry := now + 23 * 3600 }), true)) := by
  unfold KuCoinWebSocket.get_ws_token
  refine ⟨?_, ?_, ?_, ?_, ?_⟩
  · intro t ht hne hlt
    rw [ht]
    simp [hne, hlt]
  · intro ht
    rw [ht]
    split
    all_goals simp
  · intro hle
    cases htok : s.token with
    | none =>
      split
      all_goals simp
    | some t =>
      simp only
      rw [if_neg]
      · split
        all_goals simp
      · rintro ⟨-, hlt⟩
        exact absurd hle (not_le.mpr hlt)
  · intro hfalse
    by_contra hnot
    push_neg at hnot
    revert hfalse
    cases htok : s.token with
    | none =>
      split
      all_goals simp
    | some t =>
      simp only
      rw [if_neg]
      · split
        all_goals simp
      · rintro ⟨-, hlt⟩
        exact absurd hlt (not_lt.mpr hnot)
  · intro ht hcode
    rw [ht]
    simp [hcode]

/-- C4 witness: the cached branch applied to the concrete cached state at
time 0 (before the expiry 100). -/
theorem claim4_token_cache_witness :
    c4CachedState.get_ws_token 0 c4FreshResp =
      (Except.ok ((c4CachedState.endpoint.getD "None") ++ "?token=" ++ "tok",
        c4CachedState), false) :=
  (claim4_token_cache c4CachedState 0 c4FreshResp).1 "tok" rfl (by decide)
    (by norm_num [c4CachedState])

/-- C5: A `connect()` call on a manager whose connected flag is set
returns false and leaves the state — exchange, symbol, channels,
market_type, client and worker count included — identical, regardless of
the requested exchange, symbol, channels, market type, or whether client
setup would have succeeded. -/
theorem claim5_double_connect_guard (s : WebSocketManager) (h : s.connected = true)
    (exchange symbol : String) (channels : List String) (market_type : String)
    (setup_ok : Bool) :
    s.connect exchange symbol channels market_type setup_ok = (s, false) := by
  unfold WebSocketManager.connect
  rw [h]
  simp

/-- C5 witness: the guard applied to a concrete connected manager. -/
theorem claim5_double_connect_guard_witness :
    connectedManager.connect "BitGet" "ETHUSDT" ["ticker"] "futures" true =
      (connectedManager, false) :=
  claim5_double_connect_guard connectedManager rfl "BitGet" "ETHUSDT" ["ticker"]
    "futures" true

/-- C6 counterexample: the KuCoin client builds the subscription topic for
the suffixed symbol BTCUSDT_UMCBL with the suffix still present — the raw
suffixed form IS sent over the wire, contradicting the claim for the
KuCoin Subscription Manager. -/
theorem claim6_counterexample :
    KuCoinWebSocket.subscribe_topics "futures" "BTCUSDT_UMCBL" (some ["ticker"]) =
      ["/contractMarket/ticker:BTCUSDT_UMCBL"] ∧
    ("/contractMarket/ticker:BTCUSDT_UMCBL" : String) ≠
      "/contractMarket/ticker:BTCUSDT" := by
  refine ⟨rfl, by decide⟩

/-- C6 (amended): only the BitGet client strips contract suffixes — its
subscription args carry the suffix-stripped instId for every channel
(BTCUSDT_UMCBL becomes BTCUSDT, ETHUSDT_DMCBL becomes ETHUSDT, and a
symbol without an underscore passes through unchanged); the KuCoin client
interpolates the symbol verbatim into its topics, so a suffixed symbol is
sent suffixed there. -/
theorem claim6_symbol_normalization (s : String)
    (h : s.data.contains '_' = false) :
    BitgetWebSocket.clean_symbol "BTCUSDT_UMCBL" = "BTCUSDT"
  ∧ BitgetWebSocket.clean_symbol "ETHUSDT_DMCBL" = "ETHUSDT"
  ∧ BitgetWebSocket.clean_symbol s = s
  ∧ (∀ (symbol : String) (channels : Option (List String)),
       ∀ a ∈ BitgetWebSocket.subscribe_args symbol channels,
         a.instId = BitgetWebSocket.clean_symbol symbol)
  ∧ (∀ symbol : String, KuCoinWebSocket.get_topic "futures" "ticker" symbol =
       "/contractMarket/ticker:" ++ symbol)
  ∧ KuCoinWebSocket.subscribe_topics "futures" "BTCUSDT_UMCBL" (some ["ticker"]) =
      ["/contractMarket/ticker:BTCUSDT_UMCBL"] := by
  refine ⟨by decide, by decide, ?_, ?_, fun symbol => rfl, rfl⟩
  · unfold BitgetWebSocket.clean_symbol
    rw [h]
    simp
  · intro symbol channels a ha
    unfold BitgetWebSocket.subscribe_args at ha
    simp only [List.mem_map] at ha
    obtain ⟨c, -, rfl⟩ := ha
    rfl

/-- C6 witness: the amended theorem applied at the suffix-free symbol
BTCUSDT. -/
theorem claim6_symbol_normalization_witness :
    BitgetWebSocket.clean_symbol "BTCUSDT" = "BTCUSDT" :=
  (claim6_symbol_normalization "BTCUSDT" (by decide)).2.2.1

/-- C7: A KuCoin welcome frame, a BitGet subscribe acknowledgement, a
ticker-shaped frame with a missing numeric field and one with an
unparseable numeric field all normalize to none; and whenever processing
yields none the data callback leaves the manager — its buffer included —
exactly unchanged, so no partially-populated record is ever appended. -/
theorem claim7_message_drop :
    WebSocketManager.process_kucoin_data kucoinWelcomeMsg = none
  ∧ WebSocketManager.process_bitget_data bitgetSubAckMsg = none
  ∧ WebSocketManager.process_kucoin_data kucoinTickerMsgNoPrice = none
  ∧ WebSocketManager.process_kucoin_data kucoinTickerMsgBadPrice = none
  ∧ (∀ (s : WebSocketManager) (now : ℚ) (data : JVal),
       WebSocketManager.process_data s.exchange data = none →
         s.data_callback now data = s) := by
  refine ⟨rfl, rfl, rfl, rfl, ?_⟩
  intro s now data h
  unfold WebSocketManager.data_callback
  rw [h]

/-- C7 witness: the no-append law applied to a concrete connected manager
holding one record and receiving a welcome frame. -/
theorem claim7_message_drop_witness :
    connectedManagerWithData.data_callback 7 kucoinWelcomeMsg =
      connectedManagerWithData :=
  claim7_message_drop.2.2.2.2 connectedManagerWithData 7 kucoinWelcomeMsg rfl

/-- C8: `disconnect()` on a manager whose connected flag is false returns
true and leaves the whole manager state unchanged. -/
theorem claim8_disconnect_idle (s : WebSocketManager) (h : s.connected = false) :
    s.disconnect = (s, true) := by
  unfold WebSocketManager.disconnect
  rw [h]
  simp

/-- C8 witness: the idle disconnect applied to a freshly initialised
manager. -/
theorem claim8_disconnect_idle_witness :
    WebSocketManager.init.disconnect = (WebSocketManager.init, true) :=
  claim8_disconnect_idle WebSocketManager.init rfl

/-- C9: A `disconnect()` on a connected manager returns true, clears the
connected flag, the client reference and the last-update timestamp — so
`is_connected()` yields false and `get_last_update()` yields none — but
does not touch the data buffer: `get_data()` afterwards still returns
every record accumulated before the disconnect. -/
theorem claim9_disconnect_effect (s : WebSocketManager) (h : s.connected = true) :
    (s.disconnect).2 = true
  ∧ (s.disconnect).1.connected = false
  ∧ (s.disconnect).1.has_client = false
  ∧ (s.disconnect).1.last_update = none
  ∧ (s.disconnect).1.is_connected = false
  ∧ (s.disconnect).1.get_last_update = none
  ∧ (s.disconnect).1.data_buffer = s.data_buffer
  ∧ (s.disconnect).1.get_data = s.data_buffer := by
  unfold WebSocketManager.disconnect WebSocketManager.is_connected
    WebSocketManager.get_last_update WebSocketManager.get_data
  rw [h]
  simp

/-- C9 witness: the disconnect effect on a concrete connected manager
holding one record. -/
theorem claim9_disconnect_effect_witness :
    (connectedManagerWithData.disconnect).2 = true
  ∧ (connectedManagerWithData.disconnect).1.connected = false
  ∧ (connectedManagerWithData.disconnect).1.has_client = false
  ∧ (connectedManagerWithData.disconnect).1.last_update = none
  ∧ (connectedManagerWithData.disconnect).1.is_connected = false
  ∧ (connectedManagerWithData.disconnect).1.get_last_update = none
  ∧ (connectedManagerWithData.disconnect).1.data_buffer =
      connectedManagerWithData.data_buffer
  ∧ (connectedManagerWithData.disconnect).1.get_data =
      connectedManagerWithData.data_buffer :=
  claim9_disconnect_effect connectedManagerWithData rfl

/-- C10: With an absent (None) or empty channel list, `subscribe` and
`connect` of both exchange clients behave exactly as with the singleton
ticker list: the effective channel list is the ticker singleton, the
BitGet client builds exactly the one ticker subscription arg, the KuCoin
client exactly the one ticker topic, and both clients store the ticker
singleton as their channel list on connect. -/
theorem claim10_channel_default :
    effectiveChannels none = ["ticker"]
  ∧ effectiveChannels (some []) = ["ticker"]
  ∧ (∀ symbol : String, BitgetWebSocket.subscribe_args symbol none =
      [{ instType := "USDT-FUTURES", channel := "ticker",
         instId := BitgetWebSocket.clean_symbol symbol }])
  ∧ (∀ symbol : String, BitgetWebSocket.subscribe_args symbol (some []) =
      [{ instType := "USDT-FUTURES", channel := "ticker",
         instId := BitgetWebSocket.clean_symbol symbol }])
  ∧ (∀ (mt symbol : String), KuCoinWebSocket.subscribe_topics mt symbol none =
      [KuCoinWebSocket.get_topic mt "ticker" symbol])
  ∧ (∀ (mt symbol : String),
      KuCoinWebSocket.subscribe_topics mt symbol (some []) =
        [KuCoinWebSocket.get_topic mt "ticker" symbol])
  ∧ BitgetWebSocket.connect_channels none = ["ticker"]
  ∧ BitgetWebSocket.connect_channels (some []) = ["ticker"]
  ∧ KuCoinWebSocket.connect_channels none = ["ticker"]
  ∧ KuCoinWebSocket.connect_channels (some []) = ["ticker"] :=
  ⟨rfl, rfl, fun _ => rfl, fun _ => rfl, fun _ _ => rfl, fun _ _ => rfl,
   rfl, rfl, rfl, rfl⟩
